import Mathlib

/-!
Verification of the netconfig state module (src/salt/states/netconfig.py).

The module exposes three state functions:
  * `managed` — resolves nine option values through `config.merge` and pushes a
    rendered template to a network device through `_update_config`, which calls
    the `net.load_template` execution function;
  * `commit_cancelled` — cancels a scheduled commit by commit id;
  * `commit_confirmed` — confirms a pending commit by commit id.

Functions of the repository that are not under src/ (`config.merge`,
`net.load_template`, `net.cancel_commit`, `net.confirm_commit`, the pending
change registry) are modelled from the specification; each such definition
carries a doc comment starting with `Modelled from the spec:`.
-/

namespace Netconfig

/-- A Python value as it appears in the option dictionaries of the state
module: `None`, a boolean, or a string. -/
inductive Value where
  | vNone : Value
  | vBool : Bool → Value
  | vStr : String → Value
  deriving DecidableEq, Repr

/-- A Python keyword-argument dictionary, as an association list preserving
the construction order of the call site. -/
abbrev Kwargs := List (String × Value)

/-- First-match lookup in a keyword dictionary. -/
def lookupKw : Kwargs → String → Option Value
  | [], _ => Option.none
  | (k, v) :: rest, key => if k = key then some v else lookupKw rest key

/-- The outcome dictionary returned by the cancel/confirm state functions:
`result` is `True` / `False` / `None` (dry run), `changes` is the changes
dictionary, `comment` the human-readable message. -/
structure Outcome where
  result : Option Bool
  changes : List (String × String)
  comment : String
  deriving DecidableEq, Repr

/-- The ambient state of a cancel/confirm call: the process-wide dry-run flag
`__opts__['test']` and the two execution functions reachable through
`__salt__`. The execution functions are arbitrary: the theorems below hold
for every behaviour of `net.cancel_commit` / `net.confirm_commit`. -/
structure StateEnv where
  optsTest : Bool
  cancel_commit : String → Outcome
  confirm_commit : String → Outcome

/-- Embeds `commit_cancelled` (src/salt/states/netconfig.py, lines 486–514).
The second component of the result records whether `net.cancel_commit` was
invoked during the call. -/
def commit_cancelled (env : StateEnv) (name : String) : Outcome × Bool :=
  if env.optsTest then
    ({ result := Option.none, changes := [],
       comment := "It would cancel commit #" ++ name }, false)
  else
    let cancelled := env.cancel_commit name
    ({ cancelled with changes := [] }, true)

/-- Embeds `commit_confirmed` (src/salt/states/netconfig.py, lines 517–545).
The second component of the result records whether `net.confirm_commit` was
invoked during the call. -/
def commit_confirmed (env : StateEnv) (name : String) : Outcome × Bool :=
  if env.optsTest then
    ({ result := Option.none, changes := [],
       comment := "It would confirm commit #" ++ name }, false)
  else
    let confirmed := env.confirm_commit name
    ({ confirmed with changes := [] }, true)

/-- Modelled from the spec: `__salt__['config.merge']` (salt/modules/config.py,
not under src/). The spec prescribes a pure three-tier lookup resolving an
option value: an explicit per-call argument always wins over a process-wide
configuration value, and a process-wide value wins over the compiled default.
`perCall = none` means the caller did not pass the argument explicitly. -/
def config_merge (cfg : Kwargs) (key : String) (perCall : Option Value)
    (compiled : Value) : Value :=
  match perCall with
  | some v => v
  | Option.none => (lookupKw cfg key).getD compiled

/-- The per-call arguments of `managed` (src/salt/states/netconfig.py, lines
102–123). The nine options that `managed` passes through `config.merge` are
`Option Value`: `none` records that the caller did not pass the argument, so
the compiled default from the `def managed(...)` line applies. The remaining
arguments are carried already bound, as `managed` forwards them untouched. -/
structure ManagedArgs where
  name : String
  template_name : String
  template_source : Option String
  template_hash : Option String
  template_hash_name : Option String
  template_user : String
  template_group : String
  template_mode : String
  template_attrs : String
  saltenv : Option String
  template_engine : String
  skip_verify : Option Value
  defaults : Option Kwargs
  test : Option Value
  commit : Option Value
  debug : Option Value
  replace : Option Value
  commit_in : Option Value
  commit_at : Option Value
  revert_in : Option Value
  revert_at : Option Value
  template_vars : Kwargs
  deriving DecidableEq, Repr

/-- The full argument list of a call to the `net.load_template` execution
function, exactly as `_update_config` (src/salt/states/netconfig.py, lines
56–95) hands it over. Note that there are no dedicated fields for `commit_in`,
`commit_at`, `revert_in`, `revert_at`: the helper declares no such parameters,
so when `managed` passes them they land in the `template_vars` catch-all. -/
structure LoadTemplateCall where
  template_name : String
  template_source : Option String
  template_hash : Option String
  template_hash_name : Option String
  template_user : String
  template_group : String
  template_mode : String
  template_attrs : String
  saltenv : Option String
  template_engine : String
  skip_verify : Value
  defaults : Option Kwargs
  test : Value
  commit : Value
  debug : Value
  replace : Value
  template_vars : Kwargs
  deriving DecidableEq, Repr

/-- Embeds `_update_config` (src/salt/states/netconfig.py, lines 56–95): every
declared parameter is forwarded to `net.load_template` under the same name,
and the `**template_vars` catch-all is forwarded as `**template_vars`. -/
def update_config
    (template_name : String)
    (template_source : Option String)
    (template_hash : Option String)
    (template_hash_name : Option String)
    (template_user : String)
    (template_group : String)
    (template_mode : String)
    (template_attrs : String)
    (saltenv : Option String)
    (template_engine : String)
    (skip_verify : Value)
    (defaults : Option Kwargs)
    (test : Value)
    (commit : Value)
    (debug : Value)
    (replace : Value)
    (template_vars : Kwargs) : LoadTemplateCall :=
  { template_name := template_name
    template_source := template_source
    template_hash := template_hash
    template_hash_name := template_hash_name
    template_user := template_user
    template_group := template_group
    template_mode := template_mode
    template_attrs := template_attrs
    saltenv := saltenv
    template_engine := template_engine
    skip_verify := skip_verify
    defaults := defaults
    test := test
    commit := commit
    debug := debug
    replace := replace
    template_vars := template_vars }

/-- Embeds the body of `managed` (src/salt/states/netconfig.py, lines
447–483): the nine option values are resolved through `config.merge` against
the process-wide configuration `cfg`, then `_update_config` is invoked. The
four scheduling values are passed as extra keyword arguments, which Python
collects — in call-site order, ahead of the expanded `**template_vars` — into
the `**template_vars` catch-all of `_update_config`. The result is the
argument list delivered to `net.load_template`. -/
def managed_call (cfg : Kwargs) (a : ManagedArgs) : LoadTemplateCall :=
  let test := config_merge cfg "test" a.test (Value.vBool false)
  let debug := config_merge cfg "debug" a.debug (Value.vBool false)
  let commit := config_merge cfg "commit" a.commit (Value.vBool true)
  let replace := config_merge cfg "replace" a.replace (Value.vBool false)
  let skip_verify := config_merge cfg "skip_verify" a.skip_verify (Value.vBool false)
  let commit_in := config_merge cfg "commit_in" a.commit_in Value.vNone
  let commit_at := config_merge cfg "commit_at" a.commit_at Value.vNone
  let revert_in := config_merge cfg "revert_in" a.revert_in Value.vNone
  let revert_at := config_merge cfg "revert_at" a.revert_at Value.vNone
  update_config a.template_name a.template_source a.template_hash
    a.template_hash_name a.template_user a.template_group a.template_mode
    a.template_attrs a.saltenv a.template_engine skip_verify a.defaults
    test commit debug replace
    ([("commit_in", commit_in), ("commit_at", commit_at),
      ("revert_in", revert_in), ("revert_at", revert_at)] ++ a.template_vars)

/-- What a call to `managed` does before reaching the device layer: either it
invokes `net.load_template` with some argument list, or it aborts beforehand
with an error and `net.load_template` is never reached. -/
inductive ManagedResult where
  | invoked : LoadTemplateCall → ManagedResult
  | aborted : String → ManagedResult
  deriving DecidableEq, Repr

/-- `true` iff the call reached `net.load_template`. -/
def ManagedResult.isInvoked : ManagedResult → Bool
  | invoked _ => true
  | aborted _ => false

/-- Embeds the control flow of `managed` (src/salt/states/netconfig.py, lines
447–483): the body contains no validation between the option resolution and
the `_update_config` call, so `net.load_template` is invoked unconditionally. -/
def managed (cfg : Kwargs) (a : ManagedArgs) : ManagedResult :=
  ManagedResult.invoked (managed_call cfg a)

/-- Modelled from the spec: the lifecycle state of a pending change in the
Pending Change Registry (§3): `Scheduled` (commit not yet applied),
`AwaitingConfirmation` (applied, revert timer armed), and the three terminal
states `Confirmed`, `Cancelled`, `Reverted`. -/
inductive PendingState where
  | Scheduled : PendingState
  | AwaitingConfirmation : PendingState
  | Confirmed : PendingState
  | Cancelled : PendingState
  | Reverted : PendingState
  deriving DecidableEq, Repr

/-- `true` on the three terminal lifecycle states. -/
def PendingState.isTerminal : PendingState → Bool
  | Confirmed => true
  | Cancelled => true
  | Reverted => true
  | _ => false

/-- Modelled from the spec: a Pending Change Registry entry (§3), keyed by the
commit identifier, with its lifecycle state and optional instants. -/
structure PendingChange where
  state : PendingState
  scheduledAt : Option String
  revertAt : Option String
  deriving DecidableEq, Repr

/-- The Pending Change Registry, keyed by commit identifier. -/
abbrev Registry := List (String × PendingChange)

/-- First-match lookup in the registry. -/
def lookupReg : Registry → String → Option PendingChange
  | [], _ => Option.none
  | (k, pc) :: rest, key => if k = key then some pc else lookupReg rest key

/-- Replace the state of the entry keyed `key`, leaving the rest untouched. -/
def setState : Registry → String → PendingState → Registry
  | [], _, _ => []
  | (k, pc) :: rest, key, s =>
    if k = key then (k, { pc with state := s }) :: rest
    else (k, pc) :: setState rest key s

/-- The errors of the cancel/confirm workflow (spec §7). -/
inductive WorkflowError where
  | unknownOrTerminalCommit : WorkflowError
  | invalidTransition : WorkflowError
  deriving DecidableEq, Repr

/-- Modelled from the spec: the `net.cancel_commit` execution function
(salt/modules/napalm_network.py, not under src/), §4.3: look up the pending
change; if absent or already terminal, fail with `UnknownOrTerminalCommit`;
if `Scheduled`, transition it to `Cancelled`; if `AwaitingConfirmation`
(applied, live), reject with `InvalidTransition` rather than revert. -/
def net_cancel_commit (reg : Registry) (commitId : String) :
    Except WorkflowError Registry :=
  match lookupReg reg commitId with
  | Option.none => Except.error WorkflowError.unknownOrTerminalCommit
  | some pc =>
    match pc.state with
    | PendingState.Scheduled =>
      Except.ok (setState reg commitId PendingState.Cancelled)
    | PendingState.AwaitingConfirmation =>
      Except.error WorkflowError.invalidTransition
    | _ => Except.error WorkflowError.unknownOrTerminalCommit

/-- Modelled from the spec: the `net.confirm_commit` execution function
(salt/modules/napalm_network.py, not under src/), §4.4: the entry must be in
`AwaitingConfirmation`, in which case it transitions to `Confirmed`; any
other state (or an absent entry) fails with `UnknownOrTerminalCommit`. -/
def net_confirm_commit (reg : Registry) (commitId : String) :
    Except WorkflowError Registry :=
  match lookupReg reg commitId with
  | Option.none => Except.error WorkflowError.unknownOrTerminalCommit
  | some pc =>
    match pc.state with
    | PendingState.AwaitingConfirmation =>
      Except.ok (setState reg commitId PendingState.Confirmed)
    | _ => Except.error WorkflowError.unknownOrTerminalCommit

/-- The comment an execution-function error surfaces as (spec §7: surfaced as
a failed outcome, not a fatal abort). -/
def errorComment : WorkflowError → String
  | WorkflowError.unknownOrTerminalCommit => "Unknown or already terminal commit"
  | WorkflowError.invalidTransition => "Invalid transition for this commit"

/-- Map a registry-level cancel/confirm result to the outcome dictionary the
execution function returns to the state module. -/
def outcomeOfExcept : Except WorkflowError Registry → Outcome
  | Except.ok _ => { result := some true, changes := [], comment := "Successfully processed commit" }
  | Except.error e => { result := some false, changes := [], comment := errorComment e }

/-- The ambient environment of a cancel/confirm state call whose execution
functions act on the registry `reg` through the modelled
`net.cancel_commit` / `net.confirm_commit`. -/
def registry_env (testMode : Bool) (reg : Registry) : StateEnv :=
  { optsTest := testMode
    cancel_commit := fun n => outcomeOfExcept (net_cancel_commit reg n)
    confirm_commit := fun n => outcomeOfExcept (net_confirm_commit reg n) }

/-- Modelled from the spec: the commit directive shapes of §3 — immediate,
deferred-commit, commit-then-revert, deferred-commit-then-revert. The instants
are carried as the raw directives; no claim inspects their parsed value. -/
inductive CommitDirective where
  | immediate : CommitDirective
  | deferredCommit : String → CommitDirective
  | commitThenRevert : String → CommitDirective
  | deferredCommitThenRevert : String → String → CommitDirective
  deriving DecidableEq, Repr

/-- Modelled from the spec: the outcome record of an apply operation (§3):
tri-state success (`none` = dry run, undetermined), the already-applied flag,
the textual diff and the informational message. -/
structure ApplyOutcome where
  succeeded : Option Bool
  alreadyApplied : Bool
  diff : String
  message : String
  deriving DecidableEq, Repr

/-- The managed device, reduced to its running configuration text. -/
structure Device where
  running : String
  deriving DecidableEq, Repr

/-- The diff the Device Committer reports: empty exactly when the rendered
text equals the running configuration. -/
def computeDiff (running rendered : String) : String :=
  if rendered = running then ""
  else "--- " ++ running ++ " +++ " ++ rendered

/-- Modelled from the spec: the apply path of `net.load_template` together
with the Device Committer and the Pending Change Registry
(salt/modules/napalm_network.py and salt/utils/napalm.py, not under src/),
§4.2 steps 4–8. Returns the outcome record, the device after the call and the
registry after the call. -/
def apply_rendered (dev : Device) (reg : Registry) (rendered : String)
    (testMode : Bool) (directive : CommitDirective) (newId : String) :
    ApplyOutcome × Device × Registry :=
  if rendered = dev.running then
    ({ succeeded := some true, alreadyApplied := true, diff := "",
       message := "Already configured." }, dev, reg)
  else if testMode then
    ({ succeeded := Option.none, alreadyApplied := false,
       diff := computeDiff dev.running rendered,
       message := "Testing mode: Configuration discarded." }, dev, reg)
  else
    match directive with
    | CommitDirective.immediate =>
      ({ succeeded := some true, alreadyApplied := false,
         diff := computeDiff dev.running rendered,
         message := "Configuration changed!" }, { running := rendered }, reg)
    | CommitDirective.deferredCommit t =>
      ({ succeeded := Option.none, alreadyApplied := false,
         diff := computeDiff dev.running rendered,
         message := "Commit scheduled: #" ++ newId }, dev,
       (newId, { state := PendingState.Scheduled, scheduledAt := some t,
                 revertAt := Option.none }) :: reg)
    | CommitDirective.commitThenRevert r =>
      ({ succeeded := Option.none, alreadyApplied := false,
         diff := computeDiff dev.running rendered,
         message := "Commit pending confirmation: #" ++ newId },
       { running := rendered },
       (newId, { state := PendingState.AwaitingConfirmation,
                 scheduledAt := Option.none, revertAt := some r }) :: reg)
    | CommitDirective.deferredCommitThenRevert t r =>
      ({ succeeded := Option.none, alreadyApplied := false,
         diff := computeDiff dev.running rendered,
         message := "Commit scheduled: #" ++ newId }, dev,
       (newId, { state := PendingState.Scheduled, scheduledAt := some t,
                 revertAt := some r }) :: reg)

/-- A concrete execution-function result, used by the evaluation witnesses. -/
def sampleOutcome : Outcome :=
  { result := some true, changes := [("diff", "+ peer 172.17.17.1;")],
    comment := "Configuration changed!" }

/-- A concrete dry-run environment whose execution functions would report a
change if they were ever reached. -/
def envDry : StateEnv :=
  { optsTest := true
    cancel_commit := fun _ => sampleOutcome
    confirm_commit := fun _ => sampleOutcome }

/-- A concrete pending change still waiting for its scheduled commit. -/
def pcScheduled : PendingChange :=
  { state := PendingState.Scheduled, scheduledAt := some "5m",
    revertAt := Option.none }

/-- A concrete pending change already applied, revert timer armed. -/
def pcAwaiting : PendingChange :=
  { state := PendingState.AwaitingConfirmation, scheduledAt := Option.none,
    revertAt := some "2m" }

/-- A registry holding one scheduled change. -/
def regS : Registry := [("20180726083540640360", pcScheduled)]

/-- A registry holding one applied change awaiting confirmation. -/
def regA : Registry := [("20180726083540640360", pcAwaiting)]

/-- A concrete per-call argument record, used by the evaluation witnesses. -/
def exampleArgs : ManagedArgs :=
  { name := "ntp_peers_example"
    template_name := "salt://templates/example.jinja"
    template_source := Option.none
    template_hash := Option.none
    template_hash_name := Option.none
    template_user := "root"
    template_group := "root"
    template_mode := "755"
    template_attrs := "--------------e----"
    saltenv := Option.none
    template_engine := "jinja"
    skip_verify := Option.none
    defaults := Option.none
    test := Option.none
    commit := Option.none
    debug := Option.none
    replace := Option.none
    commit_in := Option.none
    commit_at := Option.none
    revert_in := Option.none
    revert_at := Option.none
    template_vars := [("peers", Value.vStr "192.168.0.1")] }

/-- A per-call argument record carrying both members of both scheduling
axes: `commit_in` together with `commit_at`, and `revert_in` together with
`revert_at`. -/
def conflictingArgs : ManagedArgs :=
  { exampleArgs with
    commit_in := some (Value.vStr "5")
    commit_at := some (Value.vStr "1am")
    revert_in := some (Value.vStr "2m")
    revert_at := some (Value.vStr "1am") }

/-- A per-call argument record conflicting on the commit axis only: both
`commit_in` and `commit_at` are set, the revert arguments are left unset. -/
def commitAxisConflictArgs : ManagedArgs :=
  { exampleArgs with
    commit_in := some (Value.vStr "5")
    commit_at := some (Value.vStr "1am") }

/-- The nine option keys that `managed` resolves through `config.merge`. -/
def mergedKeys : List String :=
  ["test", "debug", "commit", "replace", "skip_verify",
   "commit_in", "commit_at", "revert_in", "revert_at"]

/-- A concrete process-wide configuration overriding `test` and `commit_in`. -/
def cfgExample : Kwargs :=
  [("test", Value.vBool true), ("commit_in", Value.vStr "30m")]

/-- Per-call arguments explicitly setting `debug` and `commit_at`. -/
def argsExample : ManagedArgs :=
  { exampleArgs with
    debug := some (Value.vBool true)
    commit_at := some (Value.vStr "1am") }

/-- A process-wide configuration that sets `commit_in` and, besides, a key
that is not among the nine merged options. -/
def cfgLeft : Kwargs :=
  [("saltenv", Value.vStr "dev"), ("commit_in", Value.vStr "30m")]

/-- A second process-wide configuration agreeing with `cfgLeft` on the nine
merged options but differing elsewhere. -/
def cfgRight : Kwargs :=
  [("commit_in", Value.vStr "30m"), ("template_user", Value.vStr "admin")]

/-- If a key is present in the registry, setting its state leaves it present
with exactly that state and the other fields untouched. -/
theorem lookupReg_setState :
    ∀ (reg : Registry) (key : String) (s : PendingState) (pc : PendingChange),
      lookupReg reg key = some pc →
      lookupReg (setState reg key s) key = some { pc with state := s }
  | [], _, _, _, h => by simp [lookupReg] at h
  | (k, v) :: rest, key, s, pc, h => by
    by_cases hk : k = key
    · subst hk
      simp [lookupReg] at h
      subst h
      simp [setState, lookupReg]
    · simp [lookupReg, hk] at h
      simp [setState, lookupReg, hk]
      exact lookupReg_setState rest key s pc h

/-- C3: in dry-run mode (`__opts__['test']` set), `commit_cancelled` returns
the outcome with comment `It would cancel commit #<id>`, `None` result and
empty changes, and `net.cancel_commit` is not invoked. -/
theorem commit_cancelled_dry_run (env : StateEnv) (name : String)
    (h : env.optsTest = true) :
    commit_cancelled env name =
      ({ result := Option.none, changes := [],
         comment := "It would cancel commit #" ++ name }, false) := by
  simp [commit_cancelled, h]

/-- Witness for C3: the dry-run cancel outcome evaluated on a concrete
environment and commit id. -/
theorem commit_cancelled_dry_run_witness :
    envDry.optsTest = true ∧
    commit_cancelled envDry "20180726083540640360" =
      ({ result := Option.none, changes := [],
         comment := "It would cancel commit #" ++ "20180726083540640360" },
       false) :=
  ⟨rfl, commit_cancelled_dry_run envDry "20180726083540640360" rfl⟩

/-- C4: in dry-run mode (`__opts__['test']` set), `commit_confirmed` returns
the outcome with comment `It would confirm commit #<id>`, `None` result and
empty changes, and `net.confirm_commit` is not invoked. -/
theorem commit_confirmed_dry_run (env : StateEnv) (name : String)
    (h : env.optsTest = true) :
    commit_confirmed env name =
      ({ result := Option.none, changes := [],
         comment := "It would confirm commit #" ++ name }, false) := by
  simp [commit_confirmed, h]

/-- Witness for C4: the dry-run confirm outcome evaluated on a concrete
environment and commit id. -/
theorem commit_confirmed_dry_run_witness :
    envDry.optsTest = true ∧
    commit_confirmed envDry "20180726083540640360" =
      ({ result := Option.none, changes := [],
         comment := "It would confirm commit #" ++ "20180726083540640360" },
       false) :=
  ⟨rfl, commit_confirmed_dry_run envDry "20180726083540640360" rfl⟩

/-- C5: whatever the underlying execution functions return, the outcomes of
`commit_cancelled` and `commit_confirmed` always carry an empty `changes`
dictionary — neither operation ever reports a diff. -/
theorem cancel_confirm_changes_empty (env : StateEnv) (name : String) :
    (commit_cancelled env name).1.changes = [] ∧
    (commit_confirmed env name).1.changes = [] := by
  constructor <;>
    · simp only [commit_cancelled, commit_confirmed]
      cases env.optsTest <;> simp

/-- C9: in dry-run mode the commit id is never validated — for a name that is
absent from the registry or names an already-terminal change, both operations
still return the `It would …` outcome with `None` result without reaching the
registry lookup, whereas the same call without dry-run fails. -/
theorem dry_run_skips_commit_lookup (reg : Registry) (name : String)
    (h : lookupReg reg name = Option.none ∨
         ∃ pc, lookupReg reg name = some pc ∧ pc.state.isTerminal = true) :
    commit_cancelled (registry_env true reg) name =
      ({ result := Option.none, changes := [],
         comment := "It would cancel commit #" ++ name }, false) ∧
    commit_confirmed (registry_env true reg) name =
      ({ result := Option.none, changes := [],
         comment := "It would confirm commit #" ++ name }, false) ∧
    (commit_cancelled (registry_env false reg) name).1.result = some false ∧
    (commit_confirmed (registry_env false reg) name).1.result = some false := by
  have hcancel : ∃ e, net_cancel_commit reg name = Except.error e := by
    rcases h with hnone | ⟨pc, hpc, hterm⟩
    · exact ⟨WorkflowError.unknownOrTerminalCommit,
        by simp [net_cancel_commit, hnone]⟩
    · refine ⟨WorkflowError.unknownOrTerminalCommit, ?_⟩
      cases hs : pc.state <;> rw [hs] at hterm <;>
        simp [PendingState.isTerminal] at hterm <;>
        simp [net_cancel_commit, hpc, hs]
  have hconfirm : ∃ e, net_confirm_commit reg name = Except.error e := by
    rcases h with hnone | ⟨pc, hpc, hterm⟩
    · exact ⟨WorkflowError.unknownOrTerminalCommit,
        by simp [net_confirm_commit, hnone]⟩
    · refine ⟨WorkflowError.unknownOrTerminalCommit, ?_⟩
      cases hs : pc.state <;> rw [hs] at hterm <;>
        simp [PendingState.isTerminal] at hterm <;>
        simp [net_confirm_commit, hpc, hs]
  obtain ⟨ec, hec⟩ := hcancel
  obtain ⟨ef, hef⟩ := hconfirm
  refine ⟨?_, ?_, ?_, ?_⟩
  · simp [commit_cancelled, registry_env]
  · simp [commit_confirmed, registry_env]
  · simp [commit_cancelled, registry_env, hec, outcomeOfExcept]
  · simp [commit_confirmed, registry_env, hef, outcomeOfExcept]

/-- Witness for C9: evaluated on the empty registry and a commit id that
therefore names no pending change. -/
theorem dry_run_skips_commit_lookup_witness :
    (lookupReg ([] : Registry) "99999" = Option.none ∨
     ∃ pc, lookupReg ([] : Registry) "99999" = some pc ∧
       pc.state.isTerminal = true) ∧
    commit_cancelled (registry_env true []) "99999" =
      ({ result := Option.none, changes := [],
         comment := "It would cancel commit #" ++ "99999" }, false) ∧
    (commit_cancelled (registry_env false []) "99999").1.result = some false :=
  ⟨Or.inl rfl,
   (dry_run_skips_commit_lookup [] "99999" (Or.inl rfl)).1,
   (dry_run_skips_commit_lookup [] "99999" (Or.inl rfl)).2.2.1⟩

/-- C6: a non-dry-run cancel on a change in `AwaitingConfirmation` is rejected
with `InvalidTransition` and never converted into a revert; a cancel succeeds
only on a `Scheduled` change, transitioning it to `Cancelled`; and the
non-dry-run `commit_cancelled` state call does reach `net.cancel_commit`. -/
theorem cancel_invalid_on_awaiting (reg : Registry) (commitId : String)
    (pc : PendingChange) (h : lookupReg reg commitId = some pc) :
    (pc.state = PendingState.AwaitingConfirmation →
      net_cancel_commit reg commitId =
        Except.error WorkflowError.invalidTransition) ∧
    (∀ reg2, net_cancel_commit reg commitId = Except.ok reg2 →
      pc.state = PendingState.Scheduled ∧
      lookupReg reg2 commitId =
        some { pc with state := PendingState.Cancelled }) ∧
    (commit_cancelled (registry_env false reg) commitId).2 = true := by
  refine ⟨?_, ?_, ?_⟩
  · intro hs
    simp [net_cancel_commit, h, hs]
  · intro reg2 hok
    cases hs : pc.state <;> simp [net_cancel_commit, h, hs] at hok
    exact ⟨rfl, hok ▸ lookupReg_setState reg commitId PendingState.Cancelled pc h⟩
  · simp [commit_cancelled, registry_env]

/-- Witness for C6: on a one-entry registry, cancelling the live
(`AwaitingConfirmation`) change fails with `InvalidTransition`, while
cancelling the `Scheduled` change leaves it `Cancelled`. -/
theorem cancel_invalid_on_awaiting_witness :
    lookupReg regA "20180726083540640360" = some pcAwaiting ∧
    net_cancel_commit regA "20180726083540640360" =
      Except.error WorkflowError.invalidTransition ∧
    lookupReg (setState regS "20180726083540640360" PendingState.Cancelled)
        "20180726083540640360" =
      some { pcScheduled with state := PendingState.Cancelled } :=
  ⟨rfl,
   (cancel_invalid_on_awaiting regA "20180726083540640360" pcAwaiting rfl).1 rfl,
   ((cancel_invalid_on_awaiting regS "20180726083540640360" pcScheduled
       rfl).2.1
     (setState regS "20180726083540640360" PendingState.Cancelled) rfl).2⟩

/-- C7: an apply call whose rendered text equals the running configuration
returns `alreadyApplied = true`, `succeeded = true`, an empty diff and the
fixed message, regardless of dry-run flag and directive shape; the device and
the registry are untouched (no pending entry is created) and repeating the
call yields the same outcome. -/
theorem apply_already_configured (dev : Device) (reg : Registry)
    (rendered : String) (testMode : Bool) (directive : CommitDirective)
    (newId : String) (h : rendered = dev.running) :
    apply_rendered dev reg rendered testMode directive newId =
      ({ succeeded := some true, alreadyApplied := true, diff := "",
         message := "Already configured." }, dev, reg) ∧
    apply_rendered
        (apply_rendered dev reg rendered testMode directive newId).2.1
        (apply_rendered dev reg rendered testMode directive newId).2.2
        rendered testMode directive newId =
      apply_rendered dev reg rendered testMode directive newId := by
  have h1 : apply_rendered dev reg rendered testMode directive newId =
      ({ succeeded := some true, alreadyApplied := true, diff := "",
         message := "Already configured." }, dev, reg) := by
    simp [apply_rendered, h]
  exact ⟨h1, by rw [h1]; exact h1⟩

/-- Witness for C7: evaluated on a concrete device whose running
configuration equals the rendered text, under a revertible directive. -/
theorem apply_already_configured_witness :
    "interface Ethernet1" = (Device.mk "interface Ethernet1").running ∧
    apply_rendered (Device.mk "interface Ethernet1") [] "interface Ethernet1"
        false (CommitDirective.commitThenRevert "2m") "20180726083540640360" =
      ({ succeeded := some true, alreadyApplied := true, diff := "",
         message := "Already configured." },
       Device.mk "interface Ethernet1", []) :=
  ⟨rfl,
   (apply_already_configured (Device.mk "interface Ethernet1") []
     "interface Ethernet1" false (CommitDirective.commitThenRevert "2m")
     "20180726083540640360" rfl).1⟩

/-- Two process-wide configurations agreeing on a key resolve an option to
the same value. -/
theorem config_merge_congr (cfg1 cfg2 : Kwargs) (key : String)
    (p : Option Value) (c : Value)
    (h : lookupKw cfg1 key = lookupKw cfg2 key) :
    config_merge cfg1 key p c = config_merge cfg2 key p c := by
  cases p <;> simp [config_merge, h]

/-- C1: each of the nine options is resolved by the three-tier precedence —
an explicit per-call argument always wins, and otherwise the process-wide
value applies when present, the compiled default when not — and the resolved
value is what `managed` passes on to `net.load_template`. -/
theorem managed_option_precedence (cfg : Kwargs) (a : ManagedArgs) :
    ((∀ v, a.test = some v → (managed_call cfg a).test = v) ∧
      (a.test = Option.none →
        (managed_call cfg a).test =
          (lookupKw cfg "test").getD (Value.vBool false))) ∧
    ((∀ v, a.debug = some v → (managed_call cfg a).debug = v) ∧
      (a.debug = Option.none →
        (managed_call cfg a).debug =
          (lookupKw cfg "debug").getD (Value.vBool false))) ∧
    ((∀ v, a.commit = some v → (managed_call cfg a).commit = v) ∧
      (a.commit = Option.none →
        (managed_call cfg a).commit =
          (lookupKw cfg "commit").getD (Value.vBool true))) ∧
    ((∀ v, a.replace = some v → (managed_call cfg a).replace = v) ∧
      (a.replace = Option.none →
        (managed_call cfg a).replace =
          (lookupKw cfg "replace").getD (Value.vBool false))) ∧
    ((∀ v, a.skip_verify = some v → (managed_call cfg a).skip_verify = v) ∧
      (a.skip_verify = Option.none →
        (managed_call cfg a).skip_verify =
          (lookupKw cfg "skip_verify").getD (Value.vBool false))) ∧
    ((∀ v, a.commit_in = some v →
        lookupKw (managed_call cfg a).template_vars "commit_in" = some v) ∧
      (a.commit_in = Option.none →
        lookupKw (managed_call cfg a).template_vars "commit_in" =
          some ((lookupKw cfg "commit_in").getD Value.vNone))) ∧
    ((∀ v, a.commit_at = some v →
        lookupKw (managed_call cfg a).template_vars "commit_at" = some v) ∧
      (a.commit_at = Option.none →
        lookupKw (managed_call cfg a).template_vars "commit_at" =
          some ((lookupKw cfg "commit_at").getD Value.vNone))) ∧
    ((∀ v, a.revert_in = some v →
        lookupKw (managed_call cfg a).template_vars "revert_in" = some v) ∧
      (a.revert_in = Option.none →
        lookupKw (managed_call cfg a).template_vars "revert_in" =
          some ((lookupKw cfg "revert_in").getD Value.vNone))) ∧
    ((∀ v, a.revert_at = some v →
        lookupKw (managed_call cfg a).template_vars "revert_at" = some v) ∧
      (a.revert_at = Option.none →
        lookupKw (managed_call cfg a).template_vars "revert_at" =
          some ((lookupKw cfg "revert_at").getD Value.vNone))) := by
  refine ⟨⟨?_, ?_⟩, ⟨?_, ?_⟩, ⟨?_, ?_⟩, ⟨?_, ?_⟩, ⟨?_, ?_⟩,
    ⟨?_, ?_⟩, ⟨?_, ?_⟩, ⟨?_, ?_⟩, ⟨?_, ?_⟩⟩ <;>
    first
      | (intro v hv
         simp [managed_call, update_config, config_merge, lookupKw, hv])
      | (intro hv
         simp [managed_call, update_config, config_merge, lookupKw, hv])

/-- Witness for C1: on a concrete configuration and per-call record, the
explicit `debug` and `commit_at` win, the process-wide `test` and `commit_in`
apply where no explicit argument was given, and `commit` falls back to its
compiled default `True`. -/
theorem managed_option_precedence_witness :
    argsExample.debug = some (Value.vBool true) ∧
    (managed_call cfgExample argsExample).debug = Value.vBool true ∧
    lookupKw (managed_call cfgExample argsExample).template_vars "commit_at" =
      some (Value.vStr "1am") ∧
    (managed_call cfgExample argsExample).test = Value.vBool true ∧
    lookupKw (managed_call cfgExample argsExample).template_vars "commit_in" =
      some (Value.vStr "30m") ∧
    (managed_call cfgExample argsExample).commit = Value.vBool true := by
  obtain ⟨⟨t1, t2⟩, ⟨d1, d2⟩, ⟨c1, c2⟩, ⟨r1, r2⟩, ⟨s1, s2⟩,
    ⟨ci1, ci2⟩, ⟨ca1, ca2⟩, ⟨ri1, ri2⟩, ⟨ra1, ra2⟩⟩ :=
    managed_option_precedence cfgExample argsExample
  exact ⟨rfl, d1 (Value.vBool true) rfl, ca1 (Value.vStr "1am") rfl,
    t2 rfl, ci2 rfl, c2 rfl⟩

/-- Counterexample to C2: with both `commit_in` and `commit_at` set (and both
`revert_in` and `revert_at` set), `managed` does not abort —
`net.load_template` is invoked, with all four conflicting scheduling values
forwarded in its keyword arguments. -/
theorem managed_conflicting_directives_still_invoke :
    (managed [] conflictingArgs).isInvoked = true ∧
    lookupKw (managed_call [] conflictingArgs).template_vars "commit_in" =
      some (Value.vStr "5") ∧
    lookupKw (managed_call [] conflictingArgs).template_vars "commit_at" =
      some (Value.vStr "1am") ∧
    lookupKw (managed_call [] conflictingArgs).template_vars "revert_in" =
      some (Value.vStr "2m") ∧
    lookupKw (managed_call [] conflictingArgs).template_vars "revert_at" =
      some (Value.vStr "1am") := by
  refine ⟨rfl, ?_, ?_, ?_, ?_⟩ <;> decide

/-- C2 (amended): when after option resolution both members of a scheduling
axis are set — both `commit_in` and `commit_at`, or both `revert_in` and
`revert_at` — `managed` performs no conflict check of its own: the call does
not abort, `net.load_template` is invoked, and all four resolved scheduling
values are forwarded unchanged in its keyword arguments — any
`ConflictingDirective` rejection is left to the callee. -/
theorem managed_forwards_conflicting_directives (cfg : Kwargs)
    (a : ManagedArgs) (vci vca vri vra : Value)
    (hci : config_merge cfg "commit_in" a.commit_in Value.vNone = vci)
    (hca : config_merge cfg "commit_at" a.commit_at Value.vNone = vca)
    (hri : config_merge cfg "revert_in" a.revert_in Value.vNone = vri)
    (hra : config_merge cfg "revert_at" a.revert_at Value.vNone = vra)
    (hconflict : (vci ≠ Value.vNone ∧ vca ≠ Value.vNone) ∨
      (vri ≠ Value.vNone ∧ vra ≠ Value.vNone)) :
    (managed cfg a).isInvoked = true ∧
    lookupKw (managed_call cfg a).template_vars "commit_in" = some vci ∧
    lookupKw (managed_call cfg a).template_vars "commit_at" = some vca ∧
    lookupKw (managed_call cfg a).template_vars "revert_in" = some vri ∧
    lookupKw (managed_call cfg a).template_vars "revert_at" = some vra := by
  subst hci hca hri hra
  refine ⟨rfl, ?_, ?_, ?_, ?_⟩ <;>
    simp [managed_call, update_config, lookupKw]

/-- Witness for C2 (amended): evaluated on a per-call record conflicting on
the commit axis only (`commit_in` and `commit_at` set, revert arguments
unset) with the empty process-wide configuration. -/
theorem managed_forwards_conflicting_directives_witness :
    config_merge [] "commit_in" commitAxisConflictArgs.commit_in Value.vNone =
      Value.vStr "5" ∧
    config_merge [] "commit_at" commitAxisConflictArgs.commit_at Value.vNone =
      Value.vStr "1am" ∧
    config_merge [] "revert_in" commitAxisConflictArgs.revert_in Value.vNone =
      Value.vNone ∧
    config_merge [] "revert_at" commitAxisConflictArgs.revert_at Value.vNone =
      Value.vNone ∧
    ((Value.vStr "5" ≠ Value.vNone ∧ Value.vStr "1am" ≠ Value.vNone) ∨
      ((Value.vNone : Value) ≠ Value.vNone ∧
        (Value.vNone : Value) ≠ Value.vNone)) ∧
    (managed [] commitAxisConflictArgs).isInvoked = true ∧
    lookupKw (managed_call [] commitAxisConflictArgs).template_vars
      "commit_in" = some (Value.vStr "5") ∧
    lookupKw (managed_call [] commitAxisConflictArgs).template_vars
      "commit_at" = some (Value.vStr "1am") ∧
    lookupKw (managed_call [] commitAxisConflictArgs).template_vars
      "revert_in" = some Value.vNone := by
  refine ⟨rfl, rfl, rfl, rfl, Or.inl ⟨by decide, by decide⟩, ?_, ?_, ?_, ?_⟩
  · exact (managed_forwards_conflicting_directives [] commitAxisConflictArgs
      (Value.vStr "5") (Value.vStr "1am") Value.vNone Value.vNone
      rfl rfl rfl rfl (Or.inl ⟨by decide, by decide⟩)).1
  · exact (managed_forwards_conflicting_directives [] commitAxisConflictArgs
      (Value.vStr "5") (Value.vStr "1am") Value.vNone Value.vNone
      rfl rfl rfl rfl (Or.inl ⟨by decide, by decide⟩)).2.1
  · exact (managed_forwards_conflicting_directives [] commitAxisConflictArgs
      (Value.vStr "5") (Value.vStr "1am") Value.vNone Value.vNone
      rfl rfl rfl rfl (Or.inl ⟨by decide, by decide⟩)).2.2.1
  · exact (managed_forwards_conflicting_directives [] commitAxisConflictArgs
      (Value.vStr "5") (Value.vStr "1am") Value.vNone Value.vNone
      rfl rfl rfl rfl (Or.inl ⟨by decide, by decide⟩)).2.2.2.1

/-- C8: `_update_config` declares no dedicated parameters for the scheduling
arguments, so `managed` delivers them to `net.load_template` inside the
`**template_vars` catch-all — in the same keyword namespace as, and alongside,
the user-supplied template variables. -/
theorem scheduling_args_via_template_vars (cfg : Kwargs) (a : ManagedArgs) :
    (managed_call cfg a).template_vars =
      [("commit_in", config_merge cfg "commit_in" a.commit_in Value.vNone),
       ("commit_at", config_merge cfg "commit_at" a.commit_at Value.vNone),
       ("revert_in", config_merge cfg "revert_in" a.revert_in Value.vNone),
       ("revert_at", config_merge cfg "revert_at" a.revert_at Value.vNone)] ++
        a.template_vars ∧
    ∀ kv ∈ a.template_vars, kv ∈ (managed_call cfg a).template_vars := by
  have h1 : (managed_call cfg a).template_vars =
      [("commit_in", config_merge cfg "commit_in" a.commit_in Value.vNone),
       ("commit_at", config_merge cfg "commit_at" a.commit_at Value.vNone),
       ("revert_in", config_merge cfg "revert_in" a.revert_in Value.vNone),
       ("revert_at", config_merge cfg "revert_at" a.revert_at Value.vNone)] ++
        a.template_vars := rfl
  refine ⟨h1, ?_⟩
  intro kv hkv
  rw [h1]
  exact List.mem_append_right _ hkv

/-- Witness for C8: on the concrete per-call record, the user template
variable `peers` and the four scheduling values end up in the same keyword
dictionary handed to `net.load_template`. -/
theorem scheduling_args_via_template_vars_witness :
    ("peers", Value.vStr "192.168.0.1") ∈ exampleArgs.template_vars ∧
    (managed_call [] exampleArgs).template_vars =
      [("commit_in", Value.vNone), ("commit_at", Value.vNone),
       ("revert_in", Value.vNone), ("revert_at", Value.vNone),
       ("peers", Value.vStr "192.168.0.1")] ∧
    ("peers", Value.vStr "192.168.0.1") ∈
      (managed_call [] exampleArgs).template_vars := by
  refine ⟨by decide, ?_, ?_⟩
  · exact (scheduling_args_via_template_vars [] exampleArgs).1
  · exact (scheduling_args_via_template_vars [] exampleArgs).2
      ("peers", Value.vStr "192.168.0.1") (by decide)

/-- C10: the process-wide configuration influences the call to
`net.load_template` only through the nine merged option keys — two
configurations agreeing on those keys produce identical calls, and all the
remaining arguments are forwarded exactly as given per-call. -/
theorem managed_noninterference (cfg1 cfg2 : Kwargs) (a : ManagedArgs)
    (h : ∀ k ∈ mergedKeys, lookupKw cfg1 k = lookupKw cfg2 k) :
    managed_call cfg1 a = managed_call cfg2 a ∧
    (managed_call cfg1 a).template_name = a.template_name ∧
    (managed_call cfg1 a).template_source = a.template_source ∧
    (managed_call cfg1 a).template_hash = a.template_hash ∧
    (managed_call cfg1 a).template_hash_name = a.template_hash_name ∧
    (managed_call cfg1 a).template_user = a.template_user ∧
    (managed_call cfg1 a).template_group = a.template_group ∧
    (managed_call cfg1 a).template_mode = a.template_mode ∧
    (managed_call cfg1 a).template_attrs = a.template_attrs ∧
    (managed_call cfg1 a).saltenv = a.saltenv ∧
    (managed_call cfg1 a).template_engine = a.template_engine ∧
    (managed_call cfg1 a).defaults = a.defaults ∧
    ∀ kv ∈ a.template_vars, kv ∈ (managed_call cfg1 a).template_vars := by
  have ht := h "test" (by simp [mergedKeys])
  have hd := h "debug" (by simp [mergedKeys])
  have hc := h "commit" (by simp [mergedKeys])
  have hr := h "replace" (by simp [mergedKeys])
  have hs := h "skip_verify" (by simp [mergedKeys])
  have hci := h "commit_in" (by simp [mergedKeys])
  have hca := h "commit_at" (by simp [mergedKeys])
  have hri := h "revert_in" (by simp [mergedKeys])
  have hra := h "revert_at" (by simp [mergedKeys])
  refine ⟨?_, rfl, rfl, rfl, rfl, rfl, rfl, rfl, rfl, rfl, rfl, rfl, ?_⟩
  · simp only [managed_call]
    rw [config_merge_congr cfg1 cfg2 "test" a.test (Value.vBool false) ht,
      config_merge_congr cfg1 cfg2 "debug" a.debug (Value.vBool false) hd,
      config_merge_congr cfg1 cfg2 "commit" a.commit (Value.vBool true) hc,
      config_merge_congr cfg1 cfg2 "replace" a.replace (Value.vBool false) hr,
      config_merge_congr cfg1 cfg2 "skip_verify" a.skip_verify
        (Value.vBool false) hs,
      config_merge_congr cfg1 cfg2 "commit_in" a.commit_in Value.vNone hci,
      config_merge_congr cfg1 cfg2 "commit_at" a.commit_at Value.vNone hca,
      config_merge_congr cfg1 cfg2 "revert_in" a.revert_in Value.vNone hri,
      config_merge_congr cfg1 cfg2 "revert_at" a.revert_at Value.vNone hra]
  · intro kv hkv
    have h1 : (managed_call cfg1 a).template_vars =
        [("commit_in", config_merge cfg1 "commit_in" a.commit_in Value.vNone),
         ("commit_at", config_merge cfg1 "commit_at" a.commit_at Value.vNone),
         ("revert_in", config_merge cfg1 "revert_in" a.revert_in Value.vNone),
         ("revert_at", config_merge cfg1 "revert_at" a.revert_at Value.vNone)]
          ++ a.template_vars := rfl
    rw [h1]
    exact List.mem_append_right _ hkv

/-- Witness for C10: two concrete configurations agreeing on the nine merged
keys but differing elsewhere produce the same call, and the per-call
`template_user` is forwarded untouched. -/
theorem managed_noninterference_witness :
    (∀ k ∈ mergedKeys, lookupKw cfgLeft k = lookupKw cfgRight k) ∧
    managed_call cfgLeft exampleArgs = managed_call cfgRight exampleArgs ∧
    (managed_call cfgLeft exampleArgs).template_user =
      exampleArgs.template_user := by
  obtain ⟨e1, _, _, _, _, e6, _⟩ :=
    managed_noninterference cfgLeft cfgRight exampleArgs (by decide)
  exact ⟨by decide, e1, e6⟩

end Netconfig
